import Mathlib

/-!
Verification of the Naukri profile updater's scheduling and authentication
orchestration layer.  The Python sources (`scheduler.py`,
`naukri_updater/config.py`, `naukri_updater/main.py`,
`naukri_updater/email_otp.py`) are shallowly embedded below: pure decision
logic becomes Lean functions, the external browser/driver/mailbox world is
passed in explicitly as data (page URLs reached, DOM elements found, email
bodies fetched), and Python strings are modelled as `String` or `List Char`
as convenient.  Side effects that matter to the claims (navigations, cookie
additions, form submission, resume upload) are recorded as an event trace.
-/

namespace NaukriSpec

/-! ### Python string helpers

Python's `needle in hay` substring test, modelled on `List Char`
(a Python `str` is a sequence of characters). -/

/-- `beginsWith needle hay` is true when `needle` is an initial segment of `hay`. -/
def beginsWith : List Char → List Char → Bool
  | [], _ => true
  | _ :: _, [] => false
  | n :: ns, h :: hs => n == h && beginsWith ns hs

/-- Python's substring containment `needle in hay`. -/
def hasSub (needle : List Char) : List Char → Bool
  | [] => needle.isEmpty
  | hay@(_ :: rest) => beginsWith needle hay || hasSub needle rest

/-- Python's `hay.__contains__(needle)` on `String`s. -/
def strContains (hay needle : String) : Bool :=
  hasSub needle.data hay.data

/-- Python's `s.lower()`, as a character list. -/
def pyLower (s : String) : List Char :=
  s.data.map Char.toLower

/-! ### scheduler.py — window policy and jittered dispatch

`scheduler.py` localizes `datetime.now` to the `Asia/Kolkata` timezone and
inspects only the weekday (Monday = 0 … Sunday = 6), hour and minute, so a
timestamp is embedded as those three fields. -/

/-- A timestamp already localized to IST, as `scheduler.py` observes it. -/
structure ISTTime where
  weekday : Fin 7
  hour : Fin 24
  minute : Fin 60

/-- scheduler.py line 24: `ALLOWED_DAYS = {0, 1, 2, 3, 4, 5}` (Monday–Saturday). -/
def ALLOWED_DAYS : List (Fin 7) := [0, 1, 2, 3, 4, 5]

/-- scheduler.py line 25: `START_HOUR = 6`. -/
def START_HOUR : Nat := 6

/-- scheduler.py line 26: `END_HOUR = 18`. -/
def END_HOUR : Nat := 18

/-- scheduler.py `is_within_allowed_window` (lines 39–48): weekday must be in
`ALLOWED_DAYS` and the hour must satisfy `START_HOUR <= hour < END_HOUR`. -/
def is_within_allowed_window (now : ISTTime) : Bool :=
  if !(ALLOWED_DAYS.contains now.weekday) then
    false
  else if !(decide (START_HOUR ≤ now.hour.val) && decide (now.hour.val < END_HOUR)) then
    false
  else
    true

/-- Observable steps taken by `_run_with_delay` in scheduler.py. -/
inductive SchedEvent where
  | windowCheck (ok : Bool)
  | sleepSeconds (n : Nat)
  | dispatchRun (mode : String)
  deriving DecidableEq

/-- scheduler.py `_run_with_delay` (lines 51–83): check the window at time
`t1`, sleep `random.randint(1, 15)` minutes (the draw is passed in as
`delayMinutes`), re-check the window at the later time `t2`, then invoke
`updater.run(mode=mode)`. -/
def run_with_delay (mode : String) (t1 : ISTTime) (delayMinutes : Nat)
    (t2 : ISTTime) : List SchedEvent :=
  if !is_within_allowed_window t1 then
    [.windowCheck false]
  else
    .windowCheck true :: .sleepSeconds (delayMinutes * 60) ::
      (if !is_within_allowed_window t2 then
        [.windowCheck false]
      else
        [.windowCheck true, .dispatchRun mode])

/-- scheduler.py `run_profile_update` (lines 93–97): `_run_with_delay("profile")`. -/
def run_profile_update (t1 : ISTTime) (delayMinutes : Nat) (t2 : ISTTime) :
    List SchedEvent :=
  run_with_delay "profile" t1 delayMinutes t2

/-- scheduler.py `main` line 119: the startup dispatch is exactly a call of
`run_profile_update()`. -/
def startup_initial_dispatch (t1 : ISTTime) (delayMinutes : Nat) (t2 : ISTTime) :
    List SchedEvent :=
  run_profile_update t1 delayMinutes t2

/-! ### config.py — cookie parsing

`NAUKRI_COOKIES` is an environment string fed to `json.loads`.  The parse
outcome is embedded directly: the variable is unset/empty, the string is
invalid JSON, or it parses to some JSON value.  A JSON array's elements are
either JSON objects (Python dicts, from which `load_cookies` reads the
`name`/`value`/`domain`/`path` keys) or non-dict values. -/

/-- A field of a cookie JSON object: the key may be absent, explicitly
`null`, or a string. -/
inductive JStr where
  | absent
  | null
  | str (v : String)
  deriving DecidableEq

/-- A cookie JSON object with the four keys `load_cookies` reads. -/
structure CookieObj where
  name : JStr
  value : JStr
  domain : JStr
  path : JStr
  deriving DecidableEq

/-- An element of the parsed cookie array: a dict, or any non-dict JSON
value (string, number, …) on which Python's `.get` raises `AttributeError`. -/
inductive CookieEntry where
  | obj (c : CookieObj)
  | nonDict
  deriving DecidableEq

/-- The JSON value `json.loads` produced from `NAUKRI_COOKIES`. -/
inductive CookiesJson where
  | jlist (entries : List CookieEntry)
  | jobject
  | jother
  deriving DecidableEq

/-- The state of the `NAUKRI_COOKIES` environment variable as `config.py`
observes it: empty/unset, undecodable, or decoded to a JSON value. -/
inductive CookiesEnv where
  | unset
  | invalidJson
  | parsed (j : CookiesJson)
  deriving DecidableEq

/-- config.py `get_cookies` (lines 29–37): empty variable → `None`;
`JSONDecodeError` → `None`; parsed value kept only if it is a list. -/
def get_cookies : CookiesEnv → Option (List CookieEntry)
  | .unset => none
  | .invalidJson => none
  | .parsed (.jlist entries) => some entries
  | .parsed .jobject => none
  | .parsed .jother => none

/-- config.py `use_cookie_auth` (lines 102–105):
`cookies is not None and len(cookies) > 0`. -/
def use_cookie_auth (env : CookiesEnv) : Bool :=
  match get_cookies env with
  | none => false
  | some cookies => 0 < cookies.length

/-! ### main.py `load_cookies` — per-cookie injection loop (lines 150–172) -/

/-- Python `cookie.get(key)`: absent or `null` give `None`. -/
def JStr.pyGet : JStr → Option String
  | .absent => none
  | .null => none
  | .str v => some v

/-- Python `cookie.get(key, default)`: the default applies only when the key
is absent, not when it is explicitly `null`. -/
def JStr.pyGetD (j : JStr) (d : String) : Option String :=
  match j with
  | .absent => some d
  | .null => none
  | .str v => some v

/-- Python truthiness of an optional string: `None` and `""` are falsy. -/
def truthy : Option String → Bool
  | none => false
  | some s => !s.isEmpty

/-- The `cookie_clean` dict built at main.py lines 155–160. -/
structure CookieClean where
  name : Option String
  value : Option String
  domain : Option String
  path : Option String
  deriving DecidableEq

/-- main.py lines 155–160: read the four keys, defaulting `domain` to
`".naukri.com"` and `path` to `"/"`. -/
def cookie_clean (c : CookieObj) : CookieClean :=
  { name := c.name.pyGet
    value := c.value.pyGet
    domain := c.domain.pyGetD ".naukri.com"
    path := c.path.pyGetD "/" }

/-- One iteration of the injection loop on a dict entry (main.py lines
153–167): inject only if `name` and `value` are truthy and the domain
contains `"naukri.com"`.  A `None` domain makes the `in` test raise
`TypeError`, which the per-cookie handler catches, skipping the entry.
Returns the cookie handed to `driver.add_cookie`, or `none` if skipped.
(`add_cookie` itself belongs to the external driver; it is modelled as
accepting the cookie.) -/
def inject_obj (c : CookieObj) : Option CookieClean :=
  let cc := cookie_clean c
  if truthy cc.name && truthy cc.value then
    match cc.domain with
    | none => none
    | some d => if strContains d "naukri.com" then some cc else none
  else none

/-- The whole injection loop (main.py lines 152–170).  Returns the cookies
injected in order, paired with `true` when the loop raised.  On a non-dict
entry, `cookie.get('name')` raises `AttributeError`; the `except` handler's
own log line evaluates `cookie.get('name')` again, so the handler itself
raises and the loop aborts — later entries are never processed. -/
def inject_cookies : List CookieEntry → List CookieClean × Bool
  | [] => ([], false)
  | .nonDict :: _ => ([], true)
  | .obj c :: rest =>
    let r := inject_cookies rest
    (match inject_obj c with
     | none => r.1
     | some cc => cc :: r.1,
     r.2)

/-! ### Theorems for claims C8 and C10 (injection-loop part; the run-level
part of C10 follows after the `run` embedding) -/

/-- A well-formed concrete cookie used in counterexamples and witnesses. -/
def goodCookie : CookieObj :=
  { name := .str "nauk_sid", value := .str "abc123",
    domain := .str ".naukri.com", path := .str "/" }

/-! ### main.py — authentication resolution and the run pipeline

The browser is external: the URL the driver lands on and which DOM elements
resolve are inputs.  Observable side effects are recorded as events. -/

/-- config.py line 10. -/
def NAUKRI_LOGIN_URL : String := "https://www.naukri.com/nlogin/login"

/-- config.py line 11. -/
def NAUKRI_PROFILE_URL : String := "https://www.naukri.com/mnjuser/profile"

/-- config.py line 12. -/
def NAUKRI_HOME_URL : String := "https://www.naukri.com"

/-- Observable side effects of one `NaukriUpdater.run` invocation. -/
inductive Ev where
  | navigate (url : String)
  | addCookie (c : CookieClean)
  | refresh
  | submitLogin
  | uploadResume
  | updateHeadline
  | quitDriver
  deriving DecidableEq

/-- What the external browser world looks like during cookie
authentication: the URL reached after re-navigating to the profile page, and
whether the fallback logged-in DOM markers resolve. -/
structure CookieWorld where
  urlAfterAuth : String
  loggedInElemFound : Bool
  deriving DecidableEq

/-- main.py lines 201–223: classify cookie-auth success from the landed URL,
falling back to probing logged-in DOM markers. -/
def cookie_auth_classify (url : String) (markerFound : Bool) : Bool :=
  let u := pyLower url
  if hasSub "profile".data u && !hasSub "login".data u then true
  else if hasSub "homepage".data u || hasSub "mnjuser".data u then true
  else if hasSub "login".data u then false
  else markerFound

/-- main.py `load_cookies` (lines 125–228): bail out if no cookies are
available (`if not cookies` is also true for an empty list), otherwise open
the home page, run the injection loop, refresh, navigate to the profile page
and classify.  If the injection loop raises, the outer handler logs, takes a
screenshot and returns `False` — the cookies added before the raise stay
added.  Returns the success flag and the event trace. -/
def load_cookies (cookies : Option (List CookieEntry)) (w : CookieWorld) :
    Bool × List Ev :=
  match cookies with
  | none => (false, [])
  | some cs =>
    if cs.isEmpty then (false, [])
    else if (inject_cookies cs).2 then
      (false, Ev.navigate NAUKRI_HOME_URL :: (inject_cookies cs).1.map Ev.addCookie)
    else
      (cookie_auth_classify w.urlAfterAuth w.loggedInElemFound,
       Ev.navigate NAUKRI_HOME_URL :: (inject_cookies cs).1.map Ev.addCookie ++
         [Ev.refresh, Ev.navigate NAUKRI_PROFILE_URL])

/-- The result of one `driver.find_element(By.CSS_SELECTOR, sel)` call for
an error-message selector at main.py lines 358–366: either no element
matched (the call raised) or the first matching element, with its
`is_displayed()` flag and text. -/
structure ErrElem where
  displayed : Bool
  text : String
  deriving DecidableEq

/-- main.py lines 357–368: the login attempt is declared failed iff some
error selector's first match is displayed with non-empty text. -/
def visible_error (lookups : List (Option ErrElem)) : Bool :=
  lookups.any fun o =>
    match o with
    | none => false
    | some e => e.displayed && !e.text.isEmpty

/-- main.py line 352: `"login" in current_url.lower() or "nlogin" in
current_url.lower()` — the negation of the immediate-success test. -/
def on_login_url (url : String) : Bool :=
  hasSub "login".data (pyLower url) || hasSub "nlogin".data (pyLower url)

/-- main.py lines 347–372: after submitting credentials, success if the
browser left the login page; otherwise failure if a visible non-empty error
message is found; otherwise success is assumed. -/
def login_classify (url : String) (lookups : List (Option ErrElem)) : Bool :=
  if !on_login_url url then true
  else if visible_error lookups then false
  else true

/-- The external world during credential login: whether the email field,
password field and submit button resolve (via their locator fallback
chains), the URL after submitting, and the per-selector error-message
lookups. -/
structure LoginWorld where
  emailField : Bool
  passwordField : Bool
  loginButton : Bool
  urlAfterSubmit : String
  errorLookups : List (Option ErrElem)
  deriving DecidableEq

/-- main.py `login` (lines 250–381): navigate to the login page, find and
fill the fields (failing if any locator chain is exhausted), submit, then
classify.  Returns the success flag and the event trace. -/
def login (w : LoginWorld) : Bool × List Ev :=
  let nav := [Ev.navigate NAUKRI_LOGIN_URL]
  if !w.emailField then (false, nav)
  else if !w.passwordField then (false, nav)
  else if !w.loginButton then (false, nav)
  else (login_classify w.urlAfterSubmit w.errorLookups, nav ++ [Ev.submitLogin])

/-- The configuration and external world one `run` invocation reads. -/
structure RunEnv where
  cookiesEnv : CookiesEnv
  email : String
  password : String
  resumeFileExists : Bool
  cookieWorld : CookieWorld
  loginWorld : LoginWorld
  profileNavThrows : Bool
  resumeUploadOk : Bool
  deriving DecidableEq

/-- config.py `validate_config` (lines 82–100), as the predicate "no
configuration errors": cookies or credentials present, and the resume file
exists. -/
def validate_config_ok (env : RunEnv) : Bool :=
  let has_cookies := match get_cookies env.cookiesEnv with
    | none => false
    | some cs => 0 < cs.length
  let has_credentials := !env.email.isEmpty && !env.password.isEmpty
  (has_cookies || has_credentials) && env.resumeFileExists

/-- The tail of `run` after authentication succeeded (main.py lines
610–632): `navigate_to_profile` (which returns `False` only when navigation
raises), then `update_resume`; the `update_headline` call at line 623 is
commented out and never runs; `cleanup` quits the driver in the `finally`
block. -/
def run_after_auth (env : RunEnv) (pre : List Ev) : Bool × List Ev :=
  if env.profileNavThrows then
    (false, pre ++ [Ev.navigate NAUKRI_PROFILE_URL, Ev.quitDriver])
  else
    (env.resumeUploadOk,
     pre ++ [Ev.navigate NAUKRI_PROFILE_URL, Ev.uploadResume, Ev.quitDriver])

/-- main.py lines 589–596: the cookie-authentication attempt of `run` —
tried only when `use_cookie_auth()` holds, otherwise `logged_in` stays
`False` with no events. -/
def run_cookie_step (env : RunEnv) : Bool × List Ev :=
  if use_cookie_auth env.cookiesEnv then
    load_cookies (get_cookies env.cookiesEnv) env.cookieWorld
  else (false, [])

/-- main.py `NaukriUpdater.run` (lines 568–638): validate configuration,
try cookie authentication first when available, fall back to credential
login, then navigate to the profile and upload the resume.  Note the
method's signature is `def run(self) -> bool` — it accepts no `mode`
argument and unconditionally runs the resume upload. -/
def run (env : RunEnv) : Bool × List Ev :=
  if !validate_config_ok env then (false, [])
  else if (run_cookie_step env).1 then
    run_after_auth env (run_cookie_step env).2
  else if !env.email.isEmpty && !env.password.isEmpty then
    if (login env.loginWorld).1 then
      run_after_auth env ((run_cookie_step env).2 ++ (login env.loginWorld).2)
    else
      (false, (run_cookie_step env).2 ++ (login env.loginWorld).2 ++ [Ev.quitDriver])
  else
    (false, (run_cookie_step env).2 ++ [Ev.quitDriver])

/-! ### Python call semantics for `updater.run(mode=mode)`

`NaukriUpdater.run` declares no parameter besides `self`, so any keyword
argument makes the call raise `TypeError` before the body runs. -/

/-- The keyword parameter names `NaukriUpdater.run` accepts (main.py line
568: `def run(self) -> bool`). -/
def run_kwarg_names : List String := []

/-- Outcome of calling `updater.run(...)` from Python. -/
inductive PyCallResult where
  | typeError
  | returned (success : Bool) (trace : List Ev)
  deriving DecidableEq

/-- Calling `run` with the given keyword-argument names: if any name is not
a declared parameter, Python raises `TypeError` without executing the body. -/
def call_run (kwargNames : List String) (env : RunEnv) : PyCallResult :=
  if kwargNames.all (fun k => run_kwarg_names.contains k) then
    .returned (run env).1 (run env).2
  else .typeError

/-- scheduler.py line 75: `updater.run(mode=mode)` — a call with the single
keyword argument `mode`. -/
def scheduler_invoke_run (_mode : String) (env : RunEnv) : PyCallResult :=
  call_run ["mode"] env

/-! ### main.py `update_headline` — the headline toggle (lines 534–539)

The toggle operates on the current headline text; a Python `str` is
modelled as its list of characters. -/

/-- Python `h.endswith(".")`. -/
def endswith_dot (h : List Char) : Bool :=
  match h.getLast? with
  | some c => c == '.'
  | none => false

/-- main.py lines 536–539: strip a trailing `'.'` (`h[:-1]`) if present,
otherwise append one (`h + "."`). -/
def toggle_headline (h : List Char) : List Char :=
  if endswith_dot h then h.dropLast else h ++ ['.']

/-! ### email_otp.py — OTP extraction and polling

`_extract_otp` (lines 110–128) tries five regular expressions in order,
case-insensitively, returning the first leftmost capture.  The regex atoms
these patterns use are modelled directly: case-insensitive literals,
one-or-more character-class repetition (greedy; safe here because no class
overlaps what follows it), the `(\d{6})` capture, and the `\b` word
boundary.  `\d` and `\w` are modelled as decimal digits and
alphanumeric-or-underscore. -/

/-- The `\d` character class. -/
def isOtpDigit (c : Char) : Bool := c.isDigit

/-- The `[:\s]` character class. -/
def isColonOrSpace (c : Char) : Bool := c == ':' || c.isWhitespace

/-- The `\s` character class. -/
def isSpaceChar (c : Char) : Bool := c.isWhitespace

/-- The `\w` character class (word characters). -/
def isWordChar (c : Char) : Bool := c.isAlphanum || c == '_'

/-- Consume a maximal run of characters satisfying `p`. -/
def chomp (p : Char → Bool) : List Char → List Char
  | [] => []
  | c :: cs => if p c then chomp p cs else c :: cs

/-- Greedy `X+` for a character class: requires at least one match, then
consumes the maximal run.  Returns the remaining input. -/
def matchClassPlus (p : Char → Bool) : List Char → Option (List Char)
  | [] => none
  | c :: cs => if p c then some (chomp p cs) else none

/-- Case-insensitive literal match (the regexes run under `re.IGNORECASE`).
Returns the remaining input. -/
def matchLit : List Char → List Char → Option (List Char)
  | [], cs => some cs
  | _ :: _, [] => none
  | l :: ls, c :: cs => if c.toLower == l.toLower then matchLit ls cs else none

/-- The `(\d{6})` capture group: exactly six digit characters (whatever
follows is unconstrained for patterns without a trailing boundary).
Returns the capture and the remaining input. -/
def matchSixDigits : List Char → Option (List Char × List Char)
  | c1 :: c2 :: c3 :: c4 :: c5 :: c6 :: rest =>
    if isOtpDigit c1 && isOtpDigit c2 && isOtpDigit c3 &&
        isOtpDigit c4 && isOtpDigit c5 && isOtpDigit c6 then
      some ([c1, c2, c3, c4, c5, c6], rest)
    else none
  | _ => none

/-- Run a prefix matcher, then the `(\d{6})` capture at the position it
leaves off; every pattern below except the bare `\b(\d{6})\b` has this
shape. -/
def capSix (pre : List Char → Option (List Char)) (cs : List Char) :
    Option (List Char) :=
  match pre cs with
  | none => none
  | some r => (matchSixDigits r).map Prod.fst

/-- The prefix `OTP[:\s]+` of the first pattern. -/
def preOtpColon (cs : List Char) : Option (List Char) :=
  match matchLit ['O', 'T', 'P'] cs with
  | none => none
  | some r1 => matchClassPlus isColonOrSpace r1

/-- Pattern `OTP[:\s]+(\d{6})` applied at a fixed position. -/
def patOtpColon : List Char → Option (List Char) :=
  capSix preOtpColon

/-- The prefix `OTP\s+is\s+` of the second pattern. -/
def preOtpIs (cs : List Char) : Option (List Char) :=
  match matchLit ['O', 'T', 'P'] cs with
  | none => none
  | some r1 =>
    match matchClassPlus isSpaceChar r1 with
    | none => none
    | some r2 =>
      match matchLit ['i', 's'] r2 with
      | none => none
      | some r3 => matchClassPlus isSpaceChar r3

/-- Pattern `OTP\s+is\s+(\d{6})` applied at a fixed position. -/
def patOtpIs : List Char → Option (List Char) :=
  capSix preOtpIs

/-- The prefix `verification\s+code[:\s]+` of the third pattern. -/
def preVerificationCode (cs : List Char) : Option (List Char) :=
  match matchLit ['v', 'e', 'r', 'i', 'f', 'i', 'c', 'a', 't', 'i', 'o', 'n'] cs with
  | none => none
  | some r1 =>
    match matchClassPlus isSpaceChar r1 with
    | none => none
    | some r2 =>
      match matchLit ['c', 'o', 'd', 'e'] r2 with
      | none => none
      | some r3 => matchClassPlus isColonOrSpace r3

/-- Pattern `verification\s+code[:\s]+(\d{6})` applied at a fixed position. -/
def patVerificationCode : List Char → Option (List Char) :=
  capSix preVerificationCode

/-- The prefix `code[:\s]+` of the fourth pattern. -/
def preCode (cs : List Char) : Option (List Char) :=
  match matchLit ['c', 'o', 'd', 'e'] cs with
  | none => none
  | some r1 => matchClassPlus isColonOrSpace r1

/-- Pattern `code[:\s]+(\d{6})` applied at a fixed position. -/
def patCode : List Char → Option (List Char) :=
  capSix preCode

/-- The `\b` word boundary holds at the scan position when the preceding
character (if any) is not a word character; the following character is a
digit whenever the six-digit group matches. -/
def boundary_before : Option Char → Bool
  | none => true
  | some p => !isWordChar p

/-- Pattern `\b(\d{6})\b` applied at a fixed position, given the preceding
character (`none` at the start of the text). -/
def patBareSix (prev : Option Char) (cs : List Char) : Option (List Char) :=
  if !boundary_before prev then none
  else
    match matchSixDigits cs with
    | none => none
    | some (cap, rest) =>
      match rest with
      | [] => some cap
      | c :: _ => if isWordChar c then none else some cap

/-- `re.search`: try the position matcher at every position, left to right. -/
def searchPat (m : List Char → Option (List Char)) : List Char → Option (List Char)
  | [] => m []
  | cs@(_ :: rest) =>
    match m cs with
    | some cap => some cap
    | none => searchPat m rest

/-- `re.search` for the word-boundary pattern, threading the previous
character through the scan. -/
def searchBareSix (prev : Option Char) : List Char → Option (List Char)
  | [] => patBareSix prev []
  | cs@(c :: rest) =>
    match patBareSix prev cs with
    | some cap => some cap
    | none => searchBareSix (some c) rest

/-- email_otp.py `_extract_otp` (lines 110–128): try the five patterns in
order and return the first match's capture, else `None`. -/
def extract_otp (text : List Char) : Option (List Char) :=
  match searchPat patOtpColon text with
  | some cap => some cap
  | none =>
  match searchPat patOtpIs text with
  | some cap => some cap
  | none =>
  match searchPat patVerificationCode text with
  | some cap => some cap
  | none =>
  match searchPat patCode text with
  | some cap => some cap
  | none => searchBareSix none text

/-- The email-scanning loop of `get_latest_otp` (email_otp.py lines
165–184): return the first body from which an OTP extracts. -/
def scan_bodies : List (List Char) → Option (List Char)
  | [] => none
  | b :: rest =>
    match extract_otp b with
    | some otp => some otp
    | none => scan_bodies rest

/-- email_otp.py `get_latest_otp` (lines 130–191): scan the last five
matching emails, newest first (the input list is newest first), returning
the first body from which an OTP extracts; `None` if none does or no email
matches. -/
def get_latest_otp (bodies : List (List Char)) : Option (List Char) :=
  scan_bodies (bodies.take 5)

/-- email_otp.py `wait_for_otp` (lines 193–223): poll `get_latest_otp` at a
fixed interval until the timeout ceiling; the finitely many polls the loop
performs are passed as the list of inbox snapshots seen.  Returns the first
poll's OTP, or `None` once the polls are exhausted (the timeout elapsed). -/
def wait_for_otp : List (List (List Char)) → Option (List Char)
  | [] => none
  | inbox :: later =>
    match get_latest_otp inbox with
    | some otp => some otp
    | none => wait_for_otp later

/-! ### Concrete scenarios used by counterexamples and witnesses -/

/-- A login-world state after submitting credentials in which the remote UI
presents an OTP challenge: the browser is still on the login URL with an
OTP-entry form, and no error-message element is visible (the four error
selectors find nothing). -/
def otpChallengeWorld : LoginWorld :=
  { emailField := true, passwordField := true, loginButton := true,
    urlAfterSubmit := NAUKRI_LOGIN_URL,
    errorLookups := [none, none, none, none] }

/-- Scenario B environment: no cookie set, a credential pair, no mailbox
access configured anywhere (the embedding has no mailbox field because
main.py never reads the mailbox configuration), and an OTP challenge after
submitting credentials. -/
def otpScenarioEnv : RunEnv :=
  { cookiesEnv := .unset, email := "user@example.com", password := "secret",
    resumeFileExists := true,
    cookieWorld := { urlAfterAuth := "", loggedInElemFound := false },
    loginWorld := otpChallengeWorld,
    profileNavThrows := false, resumeUploadOk := true }

/-- A credential-login world in which the UI redirects to the homepage and
an error banner is nonetheless displayed. -/
def offPageErrorLookups : List (Option ErrElem) :=
  [some { displayed := true, text := "Invalid credentials" }, none, none, none]

/-- A cookie-world in which the driver lands on the profile URL. -/
def profileCookieWorld : CookieWorld :=
  { urlAfterAuth := NAUKRI_PROFILE_URL, loggedInElemFound := false }

/-- An environment with both a valid cookie set and credentials, whose
cookie authentication succeeds. -/
def cookieSuccessEnv : RunEnv :=
  { cookiesEnv := .parsed (.jlist [.obj goodCookie]),
    email := "user@example.com", password := "secret",
    resumeFileExists := true,
    cookieWorld := profileCookieWorld,
    loginWorld := otpChallengeWorld,
    profileNavThrows := false, resumeUploadOk := true }

/-- An environment whose `NAUKRI_COOKIES` parses to a JSON object (not a
list), with credentials configured. -/
def objectCookiesEnv : RunEnv :=
  { cookieSuccessEnv with cookiesEnv := .parsed .jobject }

/-! ## Theorems settling the claims -/

lemma allowed_days_iff :
    ∀ w : Fin 7, ALLOWED_DAYS.contains w = true ↔ w.val ≤ 5 := by
  decide

lemma is_within_allowed_window_eq (t : ISTTime) :
    is_within_allowed_window t =
      (ALLOWED_DAYS.contains t.weekday &&
        (decide (START_HOUR ≤ t.hour.val) && decide (t.hour.val < END_HOUR))) := by
  unfold is_within_allowed_window
  cases hc : ALLOWED_DAYS.contains t.weekday <;>
    cases h2 : decide (START_HOUR ≤ t.hour.val) <;>
      cases h3 : decide (t.hour.val < END_HOUR) <;> simp

/-- Claim C1: the window predicate returns true iff the weekday is in
Monday–Saturday (Python weekday values 0–5) and `6 ≤ hour < 18`; in
particular any minute of hour 6 on an allowed day is allowed and any minute
of hour 18 is not. -/
theorem window_policy_characterization :
    (∀ t : ISTTime, is_within_allowed_window t = true ↔
      (t.weekday.val ≤ 5 ∧ START_HOUR ≤ t.hour.val ∧ t.hour.val < END_HOUR)) ∧
    (∀ (w : Fin 7) (m : Fin 60), w.val ≤ 5 →
      is_within_allowed_window ⟨w, 6, m⟩ = true) ∧
    (∀ (w : Fin 7) (m : Fin 60), is_within_allowed_window ⟨w, 18, m⟩ = false) := by
  have hmain : ∀ t : ISTTime, is_within_allowed_window t = true ↔
      (t.weekday.val ≤ 5 ∧ START_HOUR ≤ t.hour.val ∧ t.hour.val < END_HOUR) := by
    intro t
    rw [is_within_allowed_window_eq]
    simp only [Bool.and_eq_true, decide_eq_true_eq, allowed_days_iff t.weekday]
  refine ⟨hmain, ?_, ?_⟩
  · intro w m hw
    refine (hmain ⟨w, 6, m⟩).mpr ⟨hw, ?_, ?_⟩
    · show START_HOUR ≤ (6 : Fin 24).val
      decide
    · show (6 : Fin 24).val < END_HOUR
      decide
  · intro w m
    by_contra hfalse
    simp only [Bool.not_eq_false] at hfalse
    obtain ⟨-, -, h3⟩ := (hmain ⟨w, 18, m⟩).mp hfalse
    revert h3
    show ¬ (18 : Fin 24).val < END_HOUR
    decide

/-- Witness for C1: Monday 06:00 is allowed, Monday 18:00 is not. -/
theorem window_policy_characterization_witness :
    is_within_allowed_window ⟨0, 6, 0⟩ = true ∧
    is_within_allowed_window ⟨0, 18, 0⟩ = false :=
  ⟨window_policy_characterization.2.1 0 0 (by decide),
   window_policy_characterization.2.2 0 0⟩

/-- Counterexample to claim C4 as stated: on a Monday at 10:00 (inside the
allowed window), the startup `ProfileUpdate` dispatch contains an inserted
sleep of 60 seconds (the jitter draw 1 minute), so it is not an immediate,
un-jittered dispatch gated only by the window policy. -/
theorem startup_dispatch_jitter_cex :
    SchedEvent.sleepSeconds 60 ∈ startup_initial_dispatch ⟨0, 10, 0⟩ 1 ⟨0, 10, 1⟩ ∧
    startup_initial_dispatch ⟨0, 10, 0⟩ 1 ⟨0, 10, 1⟩ ≠
      [SchedEvent.windowCheck true, SchedEvent.dispatchRun "profile"] := by
  constructor
  · decide
  · decide

/-- Claim C4 (amended): the startup dispatch of `ProfileUpdate` reuses the
jittered hourly path: when the process starts inside the allowed window it
first sleeps a random 1–15 minute jitter (at least 60 seconds) and re-checks
the window before invoking the updater with `mode="profile"`. -/
theorem startup_dispatch_is_jittered (t1 t2 : ISTTime) (d : Nat)
    (h1 : is_within_allowed_window t1 = true) (hd : 1 ≤ d ∧ d ≤ 15) :
    startup_initial_dispatch t1 d t2 =
      SchedEvent.windowCheck true :: SchedEvent.sleepSeconds (d * 60) ::
        (if is_within_allowed_window t2 then
          [SchedEvent.windowCheck true, SchedEvent.dispatchRun "profile"]
        else
          [SchedEvent.windowCheck false]) ∧
    60 ≤ d * 60 := by
  constructor
  · unfold startup_initial_dispatch run_profile_update run_with_delay
    simp only [h1, Bool.not_true, Bool.false_eq_true, if_false]
    by_cases h2 : is_within_allowed_window t2 = true
    · simp [h2]
    · simp only [Bool.not_eq_true] at h2
      simp [h2]
  · omega

/-- Witness for C4's amended theorem at Monday 10:00 with a 1-minute jitter
draw, the re-check landing at Monday 10:01. -/
theorem startup_dispatch_is_jittered_witness :
    startup_initial_dispatch ⟨0, 10, 0⟩ 1 ⟨0, 10, 1⟩ =
      SchedEvent.windowCheck true :: SchedEvent.sleepSeconds 60 ::
        (if is_within_allowed_window ⟨0, 10, 1⟩ then
          [SchedEvent.windowCheck true, SchedEvent.dispatchRun "profile"]
        else
          [SchedEvent.windowCheck false]) ∧
    60 ≤ 1 * 60 :=
  startup_dispatch_is_jittered ⟨0, 10, 0⟩ ⟨0, 10, 1⟩ 1 (by decide) (by omega)


/-- Counterexample to claim C8 as stated: on the input list
`[<non-dict entry>, <well-formed cookie>]` the injection loop raises (the
`except` handler's log line calls `.get` on the non-dict entry) and the
remaining well-formed cookie — which on its own would be injected — is not
injected: the batch is aborted. -/
theorem cookie_injection_abort_cex :
    inject_cookies [CookieEntry.nonDict, CookieEntry.obj goodCookie] = ([], true) ∧
    inject_obj goodCookie = some (cookie_clean goodCookie) := by
  constructor
  · rfl
  · rfl

/-- Claim C8 (amended): for every input list whose entries are all cookie
dicts, the loop never raises, and exactly the well-formed entries (truthy
name and value, domain containing `"naukri.com"`) are injected, in order —
malformed ones are skipped without aborting the batch.  A non-dict entry,
however, aborts the whole batch (see the counterexample). -/
theorem cookie_injection_dict_entries (l : List CookieObj) :
    inject_cookies (l.map CookieEntry.obj) = (l.filterMap inject_obj, false) := by
  induction l with
  | nil => rfl
  | cons c rest ih =>
    simp only [List.map_cons, inject_cookies, ih, List.filterMap_cons]
    cases inject_obj c <;> simp


/-- Counterexample to claim C2 as stated: the toggle is not an involution on
every string — for `"a.."` the first toggle strips one period giving
`"a."`, which still ends with a period, so the second toggle strips again,
giving `"a"` rather than restoring `"a.."`. -/
theorem headline_toggle_cex :
    toggle_headline (toggle_headline ['a', '.', '.']) ≠ ['a', '.', '.'] := by
  decide

/-- Claim C2 (amended): the headline toggle is an involution on every
headline that does not end in two consecutive periods — including the empty
string and a headline ending in a single period; headlines ending in `".."`
are the exception forced by the counterexample. -/
theorem headline_toggle_involution (h : List Char)
    (hnd : (endswith_dot h && endswith_dot h.dropLast) = false) :
    toggle_headline (toggle_headline h) = h := by
  by_cases hd : endswith_dot h = true
  · have hd2 : endswith_dot h.dropLast = false := by
      cases hx : endswith_dot h.dropLast
      · rfl
      · rw [hd, hx] at hnd
        exact absurd hnd (by decide)
    have hne : h ≠ [] := by
      intro he
      rw [he] at hd
      exact absurd hd (by decide)
    have hlast : h.getLast hne = '.' := by
      have hq := List.getLast?_eq_getLast h hne
      unfold endswith_dot at hd
      rw [hq] at hd
      simpa using hd
    unfold toggle_headline
    rw [if_pos hd, if_neg (by rw [hd2]; exact Bool.false_ne_true)]
    conv_rhs => rw [← List.dropLast_append_getLast hne]
    rw [hlast]
  · have hd' : endswith_dot h = false := by
      cases hx : endswith_dot h
      · rfl
      · exact absurd hx hd
    have happ : endswith_dot (h ++ ['.']) = true := by
      unfold endswith_dot
      rw [List.getLast?_concat]
      rfl
    unfold toggle_headline
    rw [if_neg hd, if_pos happ, List.dropLast_concat]

/-- Witness for C2's amended theorem: a headline with no trailing period. -/
theorem headline_toggle_involution_witness :
    toggle_headline (toggle_headline ['a', 'b']) = ['a', 'b'] :=
  headline_toggle_involution ['a', 'b'] (by decide)

/-! ### Event-trace shape lemmas -/

lemma mem_pair {e a b : Ev} (he : e ∈ [a, b]) : e = a ∨ e = b := by
  simp only [List.mem_cons, List.not_mem_nil, or_false] at he
  exact he

lemma mem_triple {e a b c : Ev} (he : e ∈ [a, b, c]) :
    e = a ∨ e = b ∨ e = c := by
  simp only [List.mem_cons, List.not_mem_nil, or_false] at he
  exact he

lemma load_cookies_mem {e : Ev} (cookies : Option (List CookieEntry))
    (w : CookieWorld) (he : e ∈ (load_cookies cookies w).2) :
    e = Ev.navigate NAUKRI_HOME_URL ∨ (∃ c, e = Ev.addCookie c) ∨
      e = Ev.refresh ∨ e = Ev.navigate NAUKRI_PROFILE_URL := by
  cases cookies with
  | none => simp [load_cookies] at he
  | some cs =>
    simp only [load_cookies] at he
    split at he
    · simp at he
    · split at he
      · simp only [List.mem_cons, List.mem_map] at he
        rcases he with he | ⟨c, -, he⟩
        · exact Or.inl he
        · exact Or.inr (Or.inl ⟨c, he.symm⟩)
      · simp only [List.cons_append, List.mem_cons, List.mem_append,
          List.mem_map, List.not_mem_nil, or_false] at he
        rcases he with he | ⟨c, -, he⟩ | he | he
        · exact Or.inl he
        · exact Or.inr (Or.inl ⟨c, he.symm⟩)
        · exact Or.inr (Or.inr (Or.inl he))
        · exact Or.inr (Or.inr (Or.inr he))

lemma login_mem {e : Ev} (w : LoginWorld) (he : e ∈ (login w).2) :
    e = Ev.navigate NAUKRI_LOGIN_URL ∨ e = Ev.submitLogin := by
  unfold login at he
  split at he
  · simp at he
    exact Or.inl he
  · split at he
    · simp at he
      exact Or.inl he
    · split at he
      · simp at he
        exact Or.inl he
      · simp only [List.singleton_append] at he
        exact mem_pair he

lemma run_after_auth_mem {e : Ev} (env : RunEnv) (pre : List Ev)
    (he : e ∈ (run_after_auth env pre).2) :
    e ∈ pre ∨ e = Ev.navigate NAUKRI_PROFILE_URL ∨ e = Ev.uploadResume ∨
      e = Ev.quitDriver := by
  unfold run_after_auth at he
  split at he
  · rcases List.mem_append.mp he with he | he
    · exact Or.inl he
    · rcases mem_pair he with he | he
      · exact Or.inr (Or.inl he)
      · exact Or.inr (Or.inr (Or.inr he))
  · rcases List.mem_append.mp he with he | he
    · exact Or.inl he
    · rcases mem_triple he with he | he | he
      · exact Or.inr (Or.inl he)
      · exact Or.inr (Or.inr (Or.inl he))
      · exact Or.inr (Or.inr (Or.inr he))

lemma run_cookie_step_trace (env : RunEnv) :
    (run_cookie_step env).2 = [] ∨
    (run_cookie_step env).2 =
      (load_cookies (get_cookies env.cookiesEnv) env.cookieWorld).2 := by
  unfold run_cookie_step
  by_cases h : use_cookie_auth env.cookiesEnv <;> simp [h]

lemma run_mem {e : Ev} (env : RunEnv) (he : e ∈ (run env).2) :
    e ∈ (run_cookie_step env).2 ∨ e ∈ (login env.loginWorld).2 ∨
      e = Ev.navigate NAUKRI_PROFILE_URL ∨ e = Ev.uploadResume ∨
      e = Ev.quitDriver := by
  unfold run at he
  split at he
  · simp at he
  · split at he
    · rcases run_after_auth_mem env _ he with h | h | h | h
      · exact Or.inl h
      · exact Or.inr (Or.inr (Or.inl h))
      · exact Or.inr (Or.inr (Or.inr (Or.inl h)))
      · exact Or.inr (Or.inr (Or.inr (Or.inr h)))
    · split at he
      · split at he
        · rcases run_after_auth_mem env _ he with h | h | h | h
          · rcases List.mem_append.mp h with h | h
            · exact Or.inl h
            · exact Or.inr (Or.inl h)
          · exact Or.inr (Or.inr (Or.inl h))
          · exact Or.inr (Or.inr (Or.inr (Or.inl h)))
          · exact Or.inr (Or.inr (Or.inr (Or.inr h)))
        · simp only [List.append_assoc] at he
          rcases List.mem_append.mp he with h | h
          · exact Or.inl h
          · rcases List.mem_append.mp h with h | h
            · exact Or.inr (Or.inl h)
            · simp only [List.mem_singleton] at h
              exact Or.inr (Or.inr (Or.inr (Or.inr h)))
      · rcases List.mem_append.mp he with h | h
        · exact Or.inl h
        · simp only [List.mem_singleton] at h
          exact Or.inr (Or.inr (Or.inr (Or.inr h)))

/-- Claim C3: the code does not implement the mode dispatch the claim
describes.  Every scheduler dispatch `updater.run(mode=mode)` raises
`TypeError` because `NaukriUpdater.run` declares no `mode` parameter, and no
execution of `run` ever performs the headline toggle (the
`update_headline()` call at main.py line 623 is commented out): the run
mode does not select the action, and `ProfileUpdate` runs never toggle the
headline. -/
theorem run_mode_dispatch_bug :
    (∀ (mode : String) (env : RunEnv),
        scheduler_invoke_run mode env = PyCallResult.typeError) ∧
    (∀ env : RunEnv, Ev.updateHeadline ∉ (run env).2) := by
  constructor
  · intro mode env
    rfl
  · intro env hmem
    rcases run_mem env hmem with h | h | h | h | h
    · rcases run_cookie_step_trace env with h0 | h0
      · rw [h0] at h
        simp at h
      · rw [h0] at h
        rcases load_cookies_mem _ _ h with h1 | ⟨c, h1⟩ | h1 | h1 <;> simp at h1
    · rcases login_mem _ h with h1 | h1 <;> simp at h1
    · simp at h
    · simp at h
    · simp at h

lemma login_url_ne_home : NAUKRI_LOGIN_URL ≠ NAUKRI_HOME_URL := by
  decide

lemma login_url_ne_profile : NAUKRI_LOGIN_URL ≠ NAUKRI_PROFILE_URL := by
  decide

/-- Claim C6: whenever cookie authentication is available and succeeds, the
credential strategy is never attempted in that run — the trace contains no
submission of the login form and no navigation to the login page. -/
theorem cookie_success_skips_credential_login (env : RunEnv)
    (hc : use_cookie_auth env.cookiesEnv = true)
    (hs : (load_cookies (get_cookies env.cookiesEnv) env.cookieWorld).1 = true) :
    Ev.submitLogin ∉ (run env).2 ∧
      Ev.navigate NAUKRI_LOGIN_URL ∉ (run env).2 := by
  have hstep1 : (run_cookie_step env).1 = true := by
    unfold run_cookie_step
    rw [if_pos hc]
    exact hs
  have hstep2 : (run_cookie_step env).2 =
      (load_cookies (get_cookies env.cookiesEnv) env.cookieWorld).2 := by
    unfold run_cookie_step
    rw [if_pos hc]
  have hrun : (run env).2 = [] ∨
      (run env).2 = (run_after_auth env (run_cookie_step env).2).2 := by
    unfold run
    by_cases hv : validate_config_ok env
    · rw [if_neg (by simp [hv]), if_pos hstep1]
      exact Or.inr rfl
    · rw [if_pos (by simp [hv])]
      exact Or.inl rfl
  have key : ∀ e : Ev, e ∈ (run env).2 →
      e = Ev.navigate NAUKRI_HOME_URL ∨ (∃ c, e = Ev.addCookie c) ∨
        e = Ev.refresh ∨ e = Ev.navigate NAUKRI_PROFILE_URL ∨
        e = Ev.uploadResume ∨ e = Ev.quitDriver := by
    intro e he
    rcases hrun with h0 | h0
    · rw [h0] at he
      simp at he
    · rw [h0] at he
      rcases run_after_auth_mem env _ he with h | h | h | h
      · rw [hstep2] at h
        rcases load_cookies_mem _ _ h with h1 | h1 | h1 | h1
        · exact Or.inl h1
        · exact Or.inr (Or.inl h1)
        · exact Or.inr (Or.inr (Or.inl h1))
        · exact Or.inr (Or.inr (Or.inr (Or.inl h1)))
      · exact Or.inr (Or.inr (Or.inr (Or.inl h)))
      · exact Or.inr (Or.inr (Or.inr (Or.inr (Or.inl h))))
      · exact Or.inr (Or.inr (Or.inr (Or.inr (Or.inr h))))
  constructor
  · intro hmem
    rcases key _ hmem with h | ⟨c, h⟩ | h | h | h | h <;> simp at h
  · intro hmem
    rcases key _ hmem with h | ⟨c, h⟩ | h | h | h | h
    · exact login_url_ne_home (Ev.navigate.inj h)
    · simp at h
    · simp at h
    · exact login_url_ne_profile (Ev.navigate.inj h)
    · simp at h
    · simp at h

/-- Witness for C6: a run with both a valid cookie set and credentials in
which cookie authentication lands on the profile URL. -/
theorem cookie_success_skips_credential_login_witness :
    Ev.submitLogin ∉ (run cookieSuccessEnv).2 ∧
      Ev.navigate NAUKRI_LOGIN_URL ∉ (run cookieSuccessEnv).2 :=
  cookie_success_skips_credential_login cookieSuccessEnv (by decide) (by decide)

/-- Claim C5: the claim describes intended behavior the code does not
implement.  `main.py` never consults the mailbox configuration nor the
`email_otp` module; in the scenario — no cookies, credentials configured,
the UI presenting an OTP challenge on the login URL with no visible error
element, no mailbox configured — the login routine classifies the outcome
as success, the run proceeds as authenticated and attempts the resume
upload, instead of the claimed `authenticated=false`. -/
theorem otp_challenge_assumed_success :
    (login otpChallengeWorld).1 = true ∧
    (run otpScenarioEnv).1 = true ∧
    Ev.submitLogin ∈ (run otpScenarioEnv).2 ∧
    Ev.uploadResume ∈ (run otpScenarioEnv).2 := by
  refine ⟨rfl, rfl, ?_, ?_⟩ <;> decide

/-- Counterexample to claim C7 as stated: a visible non-empty error-message
element does not override the default-success classification when the
browser has left the login page — here the driver landed on the homepage
URL while an error banner is displayed, and the login is still classified
as success (the code returns success before ever consulting the error
selectors). -/
theorem login_error_ignored_off_login_page_cex :
    visible_error offPageErrorLookups = true ∧
    login_classify "https://www.naukri.com/mnjuser/homepage"
      offPageErrorLookups = true := by
  exact ⟨rfl, rfl⟩

/-- Claim C7 (amended): being off the login page is classified as success
unconditionally — the error-message check is consulted only while still on
the login page; there, a present, visible error element with non-empty text
overrides the assumed success to failure, and otherwise success is assumed.
Equivalently: the login result is failure iff the browser is still on the
login page and a visible non-empty error message is found. -/
theorem login_failure_characterization (url : String)
    (lookups : List (Option ErrElem)) :
    login_classify url lookups = false ↔
      (on_login_url url = true ∧ visible_error lookups = true) := by
  unfold login_classify
  by_cases h1 : on_login_url url = true
  · by_cases h2 : visible_error lookups = true
    · simp [h1, h2]
    · simp [h1, h2]
  · simp [h1]

/-- Witness for C7's amended theorem: on the login URL with a visible error
message, the login is classified as failed. -/
theorem login_failure_characterization_witness :
    login_classify NAUKRI_LOGIN_URL offPageErrorLookups = false :=
  (login_failure_characterization NAUKRI_LOGIN_URL offPageErrorLookups).mpr
    ⟨rfl, rfl⟩

/-! ### OTP shape lemmas (claim C9) -/

/-- The shape property every OTP capture satisfies. -/
def SixDigitStr (cap : List Char) : Prop :=
  cap.length = 6 ∧ cap.all isOtpDigit = true

lemma matchSixDigits_spec {cs cap rest : List Char}
    (h : matchSixDigits cs = some (cap, rest)) : SixDigitStr cap := by
  unfold matchSixDigits at h
  split at h
  · split at h
    · rename_i c1 c2 c3 c4 c5 c6 r hdig
      simp only [Option.some.injEq, Prod.mk.injEq] at h
      obtain ⟨hc, -⟩ := h
      subst hc
      simp only [Bool.and_eq_true] at hdig
      obtain ⟨⟨⟨⟨⟨h1, h2⟩, h3⟩, h4⟩, h5⟩, h6⟩ := hdig
      exact ⟨rfl, by simp [List.all_cons, h1, h2, h3, h4, h5, h6]⟩
    · exact absurd h (by simp)
  · exact absurd h (by simp)

lemma capSix_spec {pre : List Char → Option (List Char)} {cs cap : List Char}
    (h : capSix pre cs = some cap) : SixDigitStr cap := by
  unfold capSix at h
  split at h
  · exact absurd h (by simp)
  · rename_i r heq
    match hm : matchSixDigits r with
    | none => rw [hm] at h; exact absurd h (by simp)
    | some (c, rest) =>
      rw [hm] at h
      simp only [Option.map_some', Option.some.injEq] at h
      rw [← h]
      exact matchSixDigits_spec hm

lemma patBareSix_spec {prev : Option Char} {cs cap : List Char}
    (h : patBareSix prev cs = some cap) : SixDigitStr cap := by
  unfold patBareSix at h
  by_cases hb : (!boundary_before prev) = true
  · rw [if_pos hb] at h
    exact absurd h (by simp)
  · rw [if_neg hb] at h
    match hm : matchSixDigits cs with
    | none =>
      rw [hm] at h
      exact absurd h (by simp)
    | some (c, []) =>
      simp only [hm, Option.some.injEq] at h
      rw [← h]
      exact matchSixDigits_spec hm
    | some (c, d :: tail) =>
      simp only [hm] at h
      by_cases hw : isWordChar d = true
      · rw [if_pos hw] at h
        exact absurd h (by simp)
      · rw [if_neg hw] at h
        simp only [Option.some.injEq] at h
        rw [← h]
        exact matchSixDigits_spec hm

lemma searchPat_spec {m : List Char → Option (List Char)}
    (hm : ∀ cs cap, m cs = some cap → SixDigitStr cap) :
    ∀ t cap, searchPat m t = some cap → SixDigitStr cap := by
  intro t
  induction t with
  | nil =>
    intro cap h
    exact hm [] cap h
  | cons c rest ih =>
    intro cap h
    unfold searchPat at h
    split at h
    · rename_i cap' heq
      simp only [Option.some.injEq] at h
      rw [← h]
      exact hm _ _ heq
    · exact ih cap h

lemma searchBareSix_spec :
    ∀ (t : List Char) (prev : Option Char) (cap : List Char),
      searchBareSix prev t = some cap → SixDigitStr cap := by
  intro t
  induction t with
  | nil =>
    intro prev cap h
    exact patBareSix_spec h
  | cons c rest ih =>
    intro prev cap h
    unfold searchBareSix at h
    split at h
    · rename_i cap' heq
      simp only [Option.some.injEq] at h
      rw [← h]
      exact patBareSix_spec heq
    · exact ih (some c) cap h

lemma extract_otp_spec {text cap : List Char}
    (h : extract_otp text = some cap) : SixDigitStr cap := by
  unfold extract_otp at h
  split at h
  · rename_i cap' heq
    simp only [Option.some.injEq] at h
    rw [← h]
    exact searchPat_spec (fun cs c hc => capSix_spec hc) text cap' heq
  · split at h
    · rename_i cap' heq
      simp only [Option.some.injEq] at h
      rw [← h]
      exact searchPat_spec (fun cs c hc => capSix_spec hc) text cap' heq
    · split at h
      · rename_i cap' heq
        simp only [Option.some.injEq] at h
        rw [← h]
        exact searchPat_spec (fun cs c hc => capSix_spec hc) text cap' heq
      · split at h
        · rename_i cap' heq
          simp only [Option.some.injEq] at h
          rw [← h]
          exact searchPat_spec (fun cs c hc => capSix_spec hc) text cap' heq
        · exact searchBareSix_spec text none cap h

lemma scan_bodies_some {bodies : List (List Char)} {cap : List Char}
    (h : scan_bodies bodies = some cap) : SixDigitStr cap := by
  induction bodies with
  | nil => exact absurd h (by simp [scan_bodies])
  | cons b rest ih =>
    unfold scan_bodies at h
    split at h
    · rename_i otp heq
      simp only [Option.some.injEq] at h
      rw [← h]
      exact extract_otp_spec heq
    · exact ih h

lemma scan_bodies_none {bodies : List (List Char)}
    (h : ∀ b ∈ bodies, extract_otp b = none) : scan_bodies bodies = none := by
  induction bodies with
  | nil => rfl
  | cons b rest ih =>
    unfold scan_bodies
    rw [h b (List.mem_cons_self b rest)]
    exact ih fun x hx => h x (List.mem_cons_of_mem b hx)

lemma get_latest_otp_none {bodies : List (List Char)}
    (h : ∀ b ∈ bodies, extract_otp b = none) : get_latest_otp bodies = none := by
  unfold get_latest_otp
  exact scan_bodies_none fun b hb => h b (List.take_subset 5 bodies hb)

/-- Claim C9: every OTP the mailbox reader produces is well-shaped — the
extractor returns `None` or a string of exactly six decimal digits, any
value the polling waiter returns is such a six-digit string, and when no
poll up to the timeout ceiling finds a code in any fetched email body, the
waiter returns `None`. -/
theorem otp_result_shape :
    (∀ text cap : List Char, extract_otp text = some cap →
        cap.length = 6 ∧ cap.all isOtpDigit = true) ∧
    (∀ (polls : List (List (List Char))) (cap : List Char),
        wait_for_otp polls = some cap →
        cap.length = 6 ∧ cap.all isOtpDigit = true) ∧
    (∀ polls : List (List (List Char)),
        (∀ inbox ∈ polls, ∀ body ∈ inbox, extract_otp body = none) →
        wait_for_otp polls = none) := by
  refine ⟨fun text cap h => extract_otp_spec h, ?_, ?_⟩
  · intro polls
    induction polls with
    | nil =>
      intro cap h
      exact absurd h (by simp [wait_for_otp])
    | cons inbox later ih =>
      intro cap h
      unfold wait_for_otp at h
      split at h
      · rename_i otp heq
        simp only [Option.some.injEq] at h
        rw [← h]
        unfold get_latest_otp at heq
        exact scan_bodies_some heq
      · exact ih cap h
  · intro polls hall
    induction polls with
    | nil => rfl
    | cons inbox later ih =>
      unfold wait_for_otp
      rw [get_latest_otp_none (hall inbox (List.mem_cons_self inbox later))]
      exact ih fun x hx => hall x (List.mem_cons_of_mem inbox hx)

/-- Witness for C9: a mailbox whose only email body contains no six-digit
code makes the waiter time out with `None`, and a body announcing an OTP
yields a six-digit extraction. -/
theorem otp_result_shape_witness :
    wait_for_otp [[['h', 'i']]] = none ∧
    (['1', '2', '3', '4', '5', '6'].length = 6 ∧
      ['1', '2', '3', '4', '5', '6'].all isOtpDigit = true) :=
  ⟨otp_result_shape.2.2 [[['h', 'i']]] (by decide),
   otp_result_shape.1 ['O', 'T', 'P', ':', ' ', '1', '2', '3', '4', '5', '6']
     ['1', '2', '3', '4', '5', '6'] (by decide)⟩

/-! ### Claim C10 — cookie absence falls through to credential login -/

lemma run_after_auth_mem_pre {e : Ev} (env : RunEnv) (pre : List Ev)
    (h : e ∈ pre) : e ∈ (run_after_auth env pre).2 := by
  unfold run_after_auth
  by_cases hp : env.profileNavThrows <;> simp [hp, List.mem_append, h]

lemma login_trace_has_nav (w : LoginWorld) :
    Ev.navigate NAUKRI_LOGIN_URL ∈ (login w).2 := by
  unfold login
  by_cases h1 : w.emailField <;> by_cases h2 : w.passwordField <;>
    by_cases h3 : w.loginButton <;> simp [h1, h2, h3]

/-- Claim C10: an unset cookie variable, invalid JSON, or a JSON value that
is not a list (in particular a JSON object of cookies) all parse to the
absent result `None`; cookie authentication is then reported unavailable,
the run behaves exactly as if no cookies had been supplied, and — when
credentials are configured and the resume file exists — it falls through to
credential login, navigating to the login page. -/
theorem cookie_env_fallthrough :
    (get_cookies .unset = none ∧ get_cookies .invalidJson = none ∧
      get_cookies (.parsed .jobject) = none ∧
      get_cookies (.parsed .jother) = none) ∧
    (∀ env : RunEnv, get_cookies env.cookiesEnv = none →
      use_cookie_auth env.cookiesEnv = false ∧
      run env = run { env with cookiesEnv := CookiesEnv.unset }) ∧
    (∀ env : RunEnv, get_cookies env.cookiesEnv = none →
      env.email.isEmpty = false → env.password.isEmpty = false →
      env.resumeFileExists = true →
      Ev.navigate NAUKRI_LOGIN_URL ∈ (run env).2) := by
  refine ⟨⟨rfl, rfl, rfl, rfl⟩, ?_, ?_⟩
  · intro env h
    have hu : use_cookie_auth env.cookiesEnv = false := by
      unfold use_cookie_auth
      rw [h]
    refine ⟨hu, ?_⟩
    have hv2 : validate_config_ok env =
        validate_config_ok { env with cookiesEnv := CookiesEnv.unset } := by
      unfold validate_config_ok
      rw [h]
      rfl
    have hcs : run_cookie_step env =
        run_cookie_step { env with cookiesEnv := CookiesEnv.unset } := by
      unfold run_cookie_step use_cookie_auth
      rw [h]
      rfl
    unfold run
    rw [hv2, hcs]
    rfl
  · intro env h he hp hr
    have hv : validate_config_ok env = true := by
      unfold validate_config_ok
      simp [h, he, hp, hr]
    have hcs1 : (run_cookie_step env).1 = false := by
      unfold run_cookie_step use_cookie_auth
      simp [h]
    have hcs2 : (run_cookie_step env).2 = [] := by
      unfold run_cookie_step use_cookie_auth
      simp [h]
    have hcred : (!env.email.isEmpty && !env.password.isEmpty) = true := by
      simp [he, hp]
    unfold run
    rw [if_neg (by simp [hv]), if_neg (by simp [hcs1]), if_pos hcred]
    by_cases hl : (login env.loginWorld).1 = true
    · rw [if_pos hl]
      exact run_after_auth_mem_pre env _
        (List.mem_append.mpr (Or.inr (login_trace_has_nav env.loginWorld)))
    · rw [if_neg hl]
      simp only [List.append_assoc]
      exact List.mem_append.mpr
        (Or.inr (List.mem_append.mpr (Or.inl (login_trace_has_nav env.loginWorld))))

/-- Witness for C10: `NAUKRI_COOKIES` parsing to a JSON object — cookie
authentication is unavailable, the run equals the no-cookies run, and the
login page is navigated to. -/
theorem cookie_env_fallthrough_witness :
    (use_cookie_auth objectCookiesEnv.cookiesEnv = false ∧
      run objectCookiesEnv =
        run { objectCookiesEnv with cookiesEnv := CookiesEnv.unset }) ∧
    Ev.navigate NAUKRI_LOGIN_URL ∈ (run objectCookiesEnv).2 :=
  ⟨cookie_env_fallthrough.2.1 objectCookiesEnv rfl,
   cookie_env_fallthrough.2.2 objectCookiesEnv rfl rfl rfl rfl⟩

end NaukriSpec
